import Mathlib

/-!
Shallow embedding of the realtime notification channel of the
smart-expense-tracker frontend, in two variants present in the source:

* the hook variant `useWebSocket` (src/frontend/hooks/useWebSocket.ts),
  whose `onmessage` handler validates the discriminant `type` field and
  the per-type payload fields before invoking the matching option
  callback; and
* the context-provider variant `WebSocketProvider` (src/unnamed/part_001),
  whose `onmessage` handler forwards every successfully parsed message to
  every registered subscriber, each call wrapped in its own try/catch,
  and which keeps a `Set` of subscriber callbacks, an `isUnmounted` flag,
  a reconnect timer, a keepalive ping interval and a reconnect-attempt
  counter.

JavaScript values appearing in parsed frames are modelled by `Json`;
field access `message.field` is `Json.getField`, and JavaScript
truthiness of a possibly-absent field is `jsTruthy`.
-/

/-- A JSON value as produced by `JSON.parse` on an inbound text frame. -/
inductive Json where
  | null
  | bool (b : Bool)
  | str (s : String)
  | num (n : Int)
  | arr (elems : List Json)
  | obj (fields : List (String × Json))

/-- First-match lookup of a key in a JSON object's field list
(JavaScript property access on an object literal). -/
def lookupField : List (String × Json) → String → Option Json
  | [], _ => none
  | (k, v) :: rest, key => if k = key then some v else lookupField rest key

/-- `j.getField k` is the JavaScript expression `j.k`: `some v` when the
field is present, `none` (i.e. `undefined`) when absent or when `j` is
not an object. -/
def Json.getField : Json → String → Option Json
  | Json.obj fields, key => lookupField fields key
  | _, _ => none

/-- JavaScript truthiness of a possibly-absent value: `undefined`, `null`,
`false`, `0` and the empty string are falsy; arrays and objects are
always truthy. -/
def jsTruthy : Option Json → Bool
  | none => false
  | some Json.null => false
  | some (Json.bool b) => b
  | some (Json.str s) => s ≠ ""
  | some (Json.num n) => n ≠ 0
  | some (Json.arr _) => true
  | some (Json.obj _) => true

/-- Outcome of `JSON.parse(event.data)`: either the parsed value or a
thrown `SyntaxError` (which the handlers catch and log). -/
inductive ParseResult where
  | failure
  | success (j : Json)

/-- A callback invocation the hook variant can make from its `onmessage`
switch: `options.onDocumentCompleted` or `options.onBannerUpdate`, with
the argument object's fields. -/
inductive HookEvent where
  | documentCompleted (document_id filename msg : Json)
  | bannerUpdate (banners : Json)

/-- The `switch (message.type)` body of the hook variant's `onmessage`
(useWebSocket.ts lines 81-101): `document_completed` invokes
`onDocumentCompleted` only when `document_id`, `filename` and `message`
are all truthy; `banner_update` invokes `onBannerUpdate` only when
`banners` is truthy; unknown types are logged and dropped. Returns the
list of callback invocations made. -/
def handleParsedHook (j : Json) : List HookEvent :=
  match j.getField "type" with
  | some (Json.str t) =>
    if t = "document_completed" then
      if jsTruthy (j.getField "document_id")
          && jsTruthy (j.getField "filename")
          && jsTruthy (j.getField "message") then
        [HookEvent.documentCompleted
          ((j.getField "document_id").getD Json.null)
          ((j.getField "filename").getD Json.null)
          ((j.getField "message").getD Json.null)]
      else []
    else if t = "banner_update" then
      if jsTruthy (j.getField "banners") then
        [HookEvent.bannerUpdate ((j.getField "banners").getD Json.null)]
      else []
    else []
  | _ => []

/-- The hook variant's full `onmessage` handler: the literal frame
`"pong"` is consumed before parsing; a parse failure is caught and
logged; otherwise the switch runs. `parsed` is the outcome of
`JSON.parse data`. -/
def hookOnMessage (data : String) (parsed : ParseResult) : List HookEvent :=
  if data = "pong" then []
  else
    match parsed with
    | ParseResult.failure => []
    | ParseResult.success j => handleParsedHook j

/-!
Context-provider variant. Subscriber callbacks are identified by a
natural number (JavaScript `Set` membership of function values is
reference identity); a callback's behaviour when invoked is an
environment `beh : Nat → Json → Except String Unit`, where
`Except.error e` models the callback throwing `e`.
-/

/-- The `subscribers.current.forEach` loop of the context variant's
`onmessage` (part_001 lines 92-98): every subscriber is called in
insertion order with the parsed message, each call inside its own
try/catch, so a throw is logged and the loop continues. Returns the
list of invoked subscribers and the list of caught (logged) errors;
the return type is total, so no error escapes the dispatch boundary. -/
def runCallbacks (beh : Nat → Json → Except String Unit) (j : Json) :
    List Nat → List Nat × List String
  | [] => ([], [])
  | c :: rest =>
    let r := runCallbacks beh j rest
    match beh c j with
    | Except.ok _ => (c :: r.1, r.2)
    | Except.error e => (c :: r.1, e :: r.2)

/-- The context variant's full `onmessage` handler (part_001 lines
81-102): `"pong"` is consumed before parsing, a parse failure is caught
and dropped, and any successfully parsed message is forwarded to every
current subscriber with no type-based validation. -/
def ctxOnMessage (beh : Nat → Json → Except String Unit) (subs : List Nat)
    (data : String) (parsed : ParseResult) : List Nat × List String :=
  if data = "pong" then ([], [])
  else
    match parsed with
    | ParseResult.failure => ([], [])
    | ParseResult.success j => runCallbacks beh j subs

/-- `subscribers.current.add(callback)` (part_001 line 158): a `Set` adds
the callback only when it is not already a member, preserving insertion
order. -/
def subscribeFn (subs : List Nat) (c : Nat) : List Nat :=
  if c ∈ subs then subs else subs ++ [c]

/-- `subscribers.current.delete(callback)` (part_001 line 162), the body
of the unsubscribe handle returned by `subscribe`: removes the (unique)
occurrence of the callback. -/
def unsubscribeFn (subs : List Nat) (c : Nat) : List Nat :=
  subs.erase c

/-- One registry operation: a `subscribe(c)` call or a call of the
unsubscribe handle returned for `c`. -/
inductive RegOp where
  | sub (c : Nat)
  | unsub (c : Nat)

/-- Apply one registry operation. -/
def applyOp (subs : List Nat) : RegOp → List Nat
  | RegOp.sub c => subscribeFn subs c
  | RegOp.unsub c => unsubscribeFn subs c

/-- The registry after a sequence of subscribe/unsubscribe calls,
starting from the empty `Set` created at provider construction. -/
def applyOps (ops : List RegOp) : List Nat :=
  ops.foldl applyOp []

/-!
Connection manager of the context-provider variant (part_001 lines
25-155). Its mutable refs become a record: `hasWs` is `ws.current !==
null`, `reconnectTimeout` holds the delay of the pending reconnect timer
when one is scheduled, `pingActive` is whether the keepalive interval is
running, and `reconnectAttempts`, `isConnected`, `isUnmounted` are the
refs of the same names. Handler bodies become functions returning the
updated state together with the ordered list of side effects (`WSAction`s)
the body performs; everything is total, so no handler throws.
-/

/-- `maxReconnectAttempts = 5` (part_001 line 29). -/
def maxReconnectAttempts : Nat := 5

/-- `reconnectDelay = 3000` milliseconds (part_001 line 30). -/
def reconnectDelay : Nat := 3000

/-- State of the connection manager: the refs of `WebSocketProvider`. -/
structure WSState where
  hasWs : Bool
  reconnectTimeout : Option Nat
  pingActive : Bool
  reconnectAttempts : Nat
  isConnected : Bool
  isUnmounted : Bool
deriving DecidableEq, Repr

/-- Observable side effects a handler body performs, in program order. -/
inductive WSAction where
  | setUnmountedFlag
  | clearReconnectTimer
  | clearPingInterval
  | closeStale
  | closeTransport (code : Nat)
  | openTransport
  | startPing
  | scheduleReconnect (delay : Nat)
  | logMaxAttempts
  | logNoToken
deriving DecidableEq, Repr

/-- `connect()` (part_001 lines 35-138): returns at once when the
provider is unmounted; warns and returns when no access token is
available; otherwise closes any stale socket, opens a new transport and
attaches the handlers. -/
def wsConnect (tokenAvailable : Bool) (s : WSState) : WSState × List WSAction :=
  if s.isUnmounted then (s, [])
  else if tokenAvailable = false then (s, [WSAction.logNoToken])
  else
    ({ s with hasWs := true },
      (if s.hasWs then [WSAction.closeStale] else []) ++ [WSAction.openTransport])

/-- The `onopen` handler (part_001 lines 59-79): marks the connection
open, resets the reconnect-attempt counter to zero, clears any existing
keepalive interval and starts a new one. -/
def wsOnOpen (s : WSState) : WSState × List WSAction :=
  ({ s with isConnected := true, reconnectAttempts := 0, pingActive := true },
    (if s.pingActive then [WSAction.clearPingInterval] else []) ++ [WSAction.startPing])

/-- The `onclose` handler (part_001 lines 108-133): marks the connection
closed and clears the keepalive interval; returns without reconnecting
when the provider is unmounted or the close code is the normal-closure
code 1000; otherwise, while the attempt counter is under the ceiling,
increments it and schedules a reconnect after `reconnectDelay *
attempts` milliseconds, and at the ceiling only logs that the maximum
was reached. -/
def wsOnClose (code : Nat) (s : WSState) : WSState × List WSAction :=
  let s1 := { s with isConnected := false, pingActive := false }
  let acts1 := if s.pingActive then [WSAction.clearPingInterval] else []
  if s.isUnmounted || code = 1000 then (s1, acts1)
  else if s.reconnectAttempts < maxReconnectAttempts then
    let n := s.reconnectAttempts + 1
    ({ s1 with reconnectAttempts := n,
               reconnectTimeout := some (reconnectDelay * n) },
      acts1 ++ [WSAction.scheduleReconnect (reconnectDelay * n)])
  else
    (s1, acts1 ++ [WSAction.logMaxAttempts])

/-- `disconnect()` (part_001 lines 140-155), statement by statement:
sets `isUnmounted`, clears the reconnect timer if pending, clears the
keepalive interval if running, and closes the socket with code 1000 and
nulls the ref if one exists. -/
def wsDisconnect (s : WSState) : WSState × List WSAction :=
  ({ s with isUnmounted := true, reconnectTimeout := none,
            pingActive := false, hasWs := false },
    [WSAction.setUnmountedFlag]
      ++ (if s.reconnectTimeout.isSome then [WSAction.clearReconnectTimer] else [])
      ++ (if s.pingActive then [WSAction.clearPingInterval] else [])
      ++ (if s.hasWs then [WSAction.closeTransport 1000] else []))

/-- The reconnect timer firing (the `setTimeout` body of part_001 line
127-129): the pending timer is consumed and `connect()` runs. -/
def wsTimerFire (tokenAvailable : Bool) (s : WSState) : WSState × List WSAction :=
  match s.reconnectTimeout with
  | none => (s, [])
  | some _ => wsConnect tokenAvailable { s with reconnectTimeout := none }

/-- The events the single-threaded event loop can deliver to the
connection manager. -/
inductive WSEvent where
  | connectCall (tokenAvailable : Bool)
  | openEvt
  | closeEvt (code : Nat)
  | messageEvt (data : String)
  | disconnectCall
  | timerFire (tokenAvailable : Bool)
deriving DecidableEq, Repr

/-- One step of the connection manager. The `onmessage` handler only
dispatches to subscribers (see `ctxOnMessage`); it reads but never
writes the connection state and performs no transport action. -/
def step (s : WSState) : WSEvent → WSState × List WSAction
  | WSEvent.connectCall tok => wsConnect tok s
  | WSEvent.openEvt => wsOnOpen s
  | WSEvent.closeEvt code => wsOnClose code s
  | WSEvent.messageEvt _ => (s, [])
  | WSEvent.disconnectCall => wsDisconnect s
  | WSEvent.timerFire tok => wsTimerFire tok s

/-- A run of consecutive close events (abnormal-close sequences with no
intervening open), collecting the actions of each handler invocation. -/
def runCloses (codes : List Nat) (s : WSState) : WSState × List WSAction :=
  match codes with
  | [] => (s, [])
  | c :: rest =>
    let r1 := wsOnClose c s
    let r2 := runCloses rest r1.1
    (r2.1, r1.2 ++ r2.2)

/-!
Helper lemmas shared by the claim theorems.
-/

/-- Every subscriber in the registry is invoked by the dispatch loop,
whatever each callback does when called. -/
theorem runCallbacks_fst (beh : Nat → Json → Except String Unit) (j : Json) :
    ∀ subs : List Nat, (runCallbacks beh j subs).1 = subs := by
  intro subs
  induction subs with
  | nil => rfl
  | cons c rest ih =>
    simp only [runCallbacks]
    cases h : beh c j <;> simp [h, ih]

/-- An error thrown by a subscriber is caught and appears among the
logged errors of the dispatch loop. -/
theorem runCallbacks_error_logged (beh : Nat → Json → Except String Unit)
    (j : Json) (c : Nat) (e : String) :
    ∀ subs : List Nat, c ∈ subs → beh c j = Except.error e →
      e ∈ (runCallbacks beh j subs).2 := by
  intro subs
  induction subs with
  | nil => intro h; cases h
  | cons d rest ih =>
    intro hmem he
    simp only [runCallbacks]
    rcases List.mem_cons.mp hmem with hcd | hrest
    · subst hcd
      rw [he]
      simp
    · cases h : beh d j <;> simp [h, ih hrest he]

/-- Adding a callback to the `Set` preserves the no-duplicates
invariant. -/
theorem subscribeFn_nodup {subs : List Nat} (h : subs.Nodup) (c : Nat) :
    (subscribeFn subs c).Nodup := by
  unfold subscribeFn
  split
  · exact h
  · rename_i hc
    rw [List.nodup_append]
    exact ⟨h, List.nodup_singleton c, by simpa using hc⟩

/-- Applying any registry operation preserves the no-duplicates
invariant. -/
theorem applyOp_nodup {subs : List Nat} (h : subs.Nodup) (op : RegOp) :
    (applyOp subs op).Nodup := by
  cases op with
  | sub c => exact subscribeFn_nodup h c
  | unsub c => exact List.Nodup.erase c h

/-- Folding registry operations from a duplicate-free registry keeps it
duplicate-free. -/
theorem foldl_applyOp_nodup :
    ∀ (ops : List RegOp) (subs : List Nat), subs.Nodup →
      (ops.foldl applyOp subs).Nodup
  | [], _, h => h
  | op :: rest, subs, h =>
    foldl_applyOp_nodup rest (applyOp subs op) (applyOp_nodup h op)

/-- The registry built from any operation sequence is duplicate-free. -/
theorem applyOps_nodup (ops : List RegOp) : (applyOps ops).Nodup :=
  foldl_applyOp_nodup ops [] List.nodup_nil

/-- C5: for every sequence of subscribe/unsubscribe calls on the
Subscriber Registry, the callbacks invoked when a message is dispatched
are exactly the currently subscribed callbacks, the registry never holds
a callback twice (so none is invoked twice for one message), and after a
callback's unsubscribe handle runs the callback is no longer in the
registry, hence no longer invoked. -/
theorem dispatch_exactly_current_subscribers (ops : List RegOp)
    (beh : Nat → Json → Except String Unit) (j : Json) (c : Nat) :
    (runCallbacks beh j (applyOps ops)).1 = applyOps ops
      ∧ (applyOps ops).Nodup
      ∧ c ∉ applyOps (ops ++ [RegOp.unsub c]) := by
  refine ⟨runCallbacks_fst beh j (applyOps ops), applyOps_nodup ops, ?_⟩
  have heq : applyOps (ops ++ [RegOp.unsub c])
      = unsubscribeFn (applyOps ops) c := by
    simp [applyOps, List.foldl_append, applyOp]
  rw [heq]
  exact List.Nodup.not_mem_erase (applyOps_nodup ops)

/-- C10: in the context-provider variant, `subscribe` is idempotent for
an identical callback: because the registry is a `Set`, subscribing the
same callback twice leaves exactly one registration, dispatch invokes it
exactly once per message, and the unsubscribe handle removes it
entirely. -/
theorem subscribe_idempotent (subs : List Nat) (c : Nat)
    (beh : Nat → Json → Except String Unit) (j : Json) (h : subs.Nodup) :
    subscribeFn (subscribeFn subs c) c = subscribeFn subs c
      ∧ (subscribeFn subs c).count c = 1
      ∧ ((runCallbacks beh j (subscribeFn subs c)).1.count c = 1)
      ∧ c ∉ unsubscribeFn (subscribeFn subs c) c := by
  have hmem : c ∈ subscribeFn subs c := by
    unfold subscribeFn
    split
    · assumption
    · simp
  have hnodup : (subscribeFn subs c).Nodup := subscribeFn_nodup h c
  refine ⟨?_, ?_, ?_, ?_⟩
  · unfold subscribeFn
    rw [if_pos]
    exact hmem
  · exact List.count_eq_one_of_mem hnodup hmem
  · rw [runCallbacks_fst]
    exact List.count_eq_one_of_mem hnodup hmem
  · exact List.Nodup.not_mem_erase hnodup

/-- C10 witness: subscribing callback 5 twice on the registry holding
only callback 3 leaves one registration, one invocation per message, and
the unsubscribe handle removes it. -/
theorem subscribe_idempotent_witness :
    subscribeFn (subscribeFn [3] 5) 5 = subscribeFn [3] 5
      ∧ (subscribeFn [3] 5).count 5 = 1
      ∧ ((runCallbacks (fun _ _ => Except.ok ()) Json.null (subscribeFn [3] 5)).1.count 5 = 1)
      ∧ 5 ∉ unsubscribeFn (subscribeFn [3] 5) 5 :=
  subscribe_idempotent [3] 5 (fun _ _ => Except.ok ()) Json.null (by decide)

/-- C6: a subscriber callback that throws during dispatch is caught at
the per-callback try/catch, its error is logged, every subscriber
(including those after the throwing one) is still invoked for the
message, the dispatch function is total (no uncaught error escapes), and
the `onmessage` handler leaves the connection state unchanged and closes
nothing. -/
theorem subscriber_error_isolated (beh : Nat → Json → Except String Unit)
    (subs : List Nat) (j : Json) (c : Nat) (e : String) (s : WSState)
    (data : String) (hc : c ∈ subs) (he : beh c j = Except.error e) :
    (runCallbacks beh j subs).1 = subs
      ∧ e ∈ (runCallbacks beh j subs).2
      ∧ step s (WSEvent.messageEvt data) = (s, []) :=
  ⟨runCallbacks_fst beh j subs,
   runCallbacks_error_logged beh j c e subs hc he,
   rfl⟩

/-- C6 witness: with subscribers 1 and 2 registered and callback 1
throwing, both subscribers are invoked, the error is logged, and the
connection state is untouched. -/
theorem subscriber_error_isolated_witness :
    (runCallbacks (fun n _ => if n = 1 then Except.error "boom" else Except.ok ())
        Json.null [1, 2]).1 = [1, 2]
      ∧ "boom" ∈ (runCallbacks (fun n _ => if n = 1 then Except.error "boom" else Except.ok ())
          Json.null [1, 2]).2
      ∧ step ⟨true, none, true, 0, true, false⟩ (WSEvent.messageEvt "x")
          = (⟨true, none, true, 0, true, false⟩, []) :=
  subscriber_error_isolated
    (fun n _ => if n = 1 then Except.error "boom" else Except.ok ())
    [1, 2] Json.null 1 "boom" ⟨true, none, true, 0, true, false⟩ "x"
    (by decide) (by simp)

/-- C8: a frame whose data is the literal text "pong" is consumed before
parsing in both variants, so zero subscriber callbacks are invoked for
it, whatever the registry holds and whatever the parse outcome would
be. -/
theorem pong_never_forwarded (beh : Nat → Json → Except String Unit)
    (subs : List Nat) (parsed : ParseResult) :
    ctxOnMessage beh subs "pong" parsed = ([], [])
      ∧ hookOnMessage "pong" parsed = [] := by
  constructor <;> simp [ctxOnMessage, hookOnMessage]

/-- A `document_completed` frame missing its `filename` field, as parsed
JSON. -/
def c1Frame : Json :=
  Json.obj [("type", Json.str "document_completed"),
            ("document_id", Json.str "doc-1"),
            ("message", Json.str "Processing complete")]

/-- The raw text of `c1Frame` as it would arrive on the wire. -/
def c1Data : String :=
  "\x7b\"type\":\"document_completed\",\"document_id\":\"doc-1\",\"message\":\"Processing complete\"\x7d"

/-- C1 counterexample: dispatching a `document_completed` frame that is
missing `filename` through the context variant's `onmessage` invokes the
registered subscriber (callback 7 receives it), so the claim that zero
subscriber callbacks run in the context variant is false: that variant
applies no per-type validation. -/
theorem ctx_invokes_subscriber_on_missing_filename :
    c1Frame.getField "type" = some (Json.str "document_completed")
      ∧ c1Frame.getField "filename" = none
      ∧ (ctxOnMessage (fun _ _ => Except.ok ()) [7] c1Data
          (ParseResult.success c1Frame)).1 = [7]
      ∧ ([7] : List Nat) ≠ [] := by
  refine ⟨rfl, rfl, ?_, by decide⟩
  unfold ctxOnMessage
  rw [if_neg (by decide)]
  rfl

/-- C1 (amended): the hook variant drops a `document_completed` frame
missing any of `document_id`, `filename`, `message` — zero callbacks are
invoked for it — while the context variant forwards every successfully
parsed message to all registered subscribers without validation. -/
theorem hook_drops_missing_field_ctx_forwards (j : Json)
    (ht : j.getField "type" = some (Json.str "document_completed"))
    (hm : j.getField "document_id" = none ∨ j.getField "filename" = none
          ∨ j.getField "message" = none)
    (beh : Nat → Json → Except String Unit) (subs : List Nat) :
    handleParsedHook j = [] ∧ (runCallbacks beh j subs).1 = subs := by
  refine ⟨?_, runCallbacks_fst beh j subs⟩
  unfold handleParsedHook
  rw [ht]
  rcases hm with h | h | h <;> simp [h, jsTruthy]

/-- C1 witness: the amended statement evaluated on the concrete frame
missing `filename`, with subscriber 5 registered in the context
variant. -/
theorem hook_drops_missing_field_ctx_forwards_witness :
    handleParsedHook c1Frame = []
      ∧ (runCallbacks (fun _ _ => Except.ok ()) c1Frame [5]).1 = [5] :=
  hook_drops_missing_field_ctx_forwards c1Frame rfl
    (Or.inr (Or.inl rfl)) (fun _ _ => Except.ok ()) [5]

/-- `connect()` never changes the reconnect-attempt counter. -/
theorem wsConnect_preserves_attempts (tok : Bool) (s : WSState) :
    (wsConnect tok s).1.reconnectAttempts = s.reconnectAttempts := by
  unfold wsConnect
  split
  · rfl
  · split <;> rfl

/-- `connect()` never changes the unmounted flag. -/
theorem wsConnect_preserves_unmounted (tok : Bool) (s : WSState) :
    (wsConnect tok s).1.isUnmounted = s.isUnmounted := by
  unfold wsConnect
  split
  · rfl
  · split <;> rfl

/-- At or above the retry ceiling, a close event leaves the attempt
counter unchanged and schedules no reconnect. -/
theorem wsOnClose_at_ceiling (code : Nat) (s : WSState)
    (h : maxReconnectAttempts ≤ s.reconnectAttempts) :
    (wsOnClose code s).1.reconnectAttempts = s.reconnectAttempts
      ∧ ∀ d, WSAction.scheduleReconnect d ∉ (wsOnClose code s).2 := by
  have hnlt : ¬ s.reconnectAttempts < maxReconnectAttempts := by omega
  by_cases hb : (s.isUnmounted || decide (code = 1000)) = true
  · unfold wsOnClose
    rw [if_pos hb]
    refine ⟨rfl, fun d => ?_⟩
    by_cases hp : s.pingActive = true <;> simp [hp]
  · unfold wsOnClose
    rw [if_neg hb, if_neg hnlt]
    refine ⟨rfl, fun d => ?_⟩
    by_cases hp : s.pingActive = true <;> simp [hp]

/-- Once the attempt counter is at the ceiling, no reconnect is
scheduled across any further sequence of close events. -/
theorem runCloses_no_schedule :
    ∀ (codes : List Nat) (s : WSState),
      maxReconnectAttempts ≤ s.reconnectAttempts →
      ∀ d, WSAction.scheduleReconnect d ∉ (runCloses codes s).2
  | [], _, _, d => by simp [runCloses]
  | c :: rest, s, h, d => by
    simp only [runCloses, List.mem_append]
    push_neg
    have hkeep := (wsOnClose_at_ceiling c s h).1
    exact ⟨(wsOnClose_at_ceiling c s h).2 d,
           runCloses_no_schedule rest (wsOnClose c s).1 (by omega) d⟩

/-- C3: the delay scheduled before reconnect attempt `n`, for
`1 ≤ n ≤ 5`, is exactly `3000 * n` milliseconds, a strictly increasing
linear sequence. -/
theorem reconnect_backoff_linear (n : Nat) (s : WSState) (code : Nat)
    (h1 : 1 ≤ n) (h5 : n ≤ 5) (hs : s.reconnectAttempts = n - 1)
    (hu : s.isUnmounted = false) (hc : code ≠ 1000) :
    (wsOnClose code s).1.reconnectTimeout = some (3000 * n)
      ∧ WSAction.scheduleReconnect (3000 * n) ∈ (wsOnClose code s).2
      ∧ 3000 * n < 3000 * (n + 1) := by
  have hlt : s.reconnectAttempts < maxReconnectAttempts := by
    simp only [maxReconnectAttempts]
    omega
  have hn : s.reconnectAttempts + 1 = n := by omega
  unfold wsOnClose
  rw [if_neg (by simp [hu, hc]), if_pos hlt]
  refine ⟨?_, ?_, by omega⟩
  · simp [reconnectDelay, hn]
  · simp [reconnectDelay, hn]

/-- C3 witness: from one prior failed attempt, the delay before attempt
2 is 6000 ms. -/
theorem reconnect_backoff_linear_witness :
    (wsOnClose 1006 ⟨true, none, true, 1, true, false⟩).1.reconnectTimeout
        = some (3000 * 2)
      ∧ WSAction.scheduleReconnect (3000 * 2)
          ∈ (wsOnClose 1006 ⟨true, none, true, 1, true, false⟩).2
      ∧ 3000 * 2 < 3000 * (2 + 1) :=
  reconnect_backoff_linear 2 ⟨true, none, true, 1, true, false⟩ 1006
    (by decide) (by decide) rfl rfl (by decide)

/-- C4: on an abnormal close (code other than 1000) the attempt counter
increments by exactly 1 and a reconnect is scheduled while under the
ceiling of 5; once the counter has reached 5, an abnormal close logs the
terminal condition (the handler is a total function, so nothing is
thrown) and no reconnect is ever scheduled across any further sequence
of closes with no intervening open. -/
theorem reconnect_ceiling (s : WSState) (code : Nat)
    (hc : code ≠ 1000) (hu : s.isUnmounted = false) :
    (s.reconnectAttempts < 5 →
        (wsOnClose code s).1.reconnectAttempts = s.reconnectAttempts + 1
          ∧ WSAction.scheduleReconnect (3000 * (s.reconnectAttempts + 1))
              ∈ (wsOnClose code s).2)
      ∧ (5 ≤ s.reconnectAttempts →
          WSAction.logMaxAttempts ∈ (wsOnClose code s).2
            ∧ ∀ codes d, WSAction.scheduleReconnect d ∉ (runCloses codes s).2) := by
  constructor
  · intro hlt
    have hlt' : s.reconnectAttempts < maxReconnectAttempts := hlt
    unfold wsOnClose
    rw [if_neg (by simp [hu, hc]), if_pos hlt']
    exact ⟨rfl, by simp [reconnectDelay]⟩
  · intro hge
    refine ⟨?_, fun codes d => runCloses_no_schedule codes s hge d⟩
    have hnlt : ¬ s.reconnectAttempts < maxReconnectAttempts := by
      simp only [maxReconnectAttempts]
      omega
    unfold wsOnClose
    rw [if_neg (by simp [hu, hc]), if_neg hnlt]
    simp

/-- C4 witness: from two prior failed attempts, an abnormal close makes
the counter 3 and schedules a reconnect; from a counter at the ceiling,
an abnormal close logs the terminal condition and a further run of three
abnormal closes schedules nothing. -/
theorem reconnect_ceiling_witness :
    ((wsOnClose 1006 ⟨true, none, false, 2, false, false⟩).1.reconnectAttempts
        = 2 + 1
      ∧ WSAction.scheduleReconnect (3000 * (2 + 1))
          ∈ (wsOnClose 1006 ⟨true, none, false, 2, false, false⟩).2)
      ∧ (WSAction.logMaxAttempts
          ∈ (wsOnClose 1006 ⟨true, none, false, 5, false, false⟩).2
        ∧ WSAction.scheduleReconnect 3000
            ∉ (runCloses [1006, 1011, 1006] ⟨true, none, false, 5, false, false⟩).2) := by
  have h1 := reconnect_ceiling ⟨true, none, false, 2, false, false⟩ 1006
    (by decide) rfl
  have h2 := reconnect_ceiling ⟨true, none, false, 5, false, false⟩ 1006
    (by decide) rfl
  exact ⟨h1.1 (by decide),
         ⟨(h2.2 (by decide)).1, (h2.2 (by decide)).2 [1006, 1011, 1006] 3000⟩⟩

/-- C7: every transport open event resets the reconnect-attempt counter
to zero, and any event that strictly increases the counter is an
abnormal close (a close with code other than 1000). -/
theorem open_resets_attempts (s : WSState) (e : WSEvent) :
    (wsOnOpen s).1.reconnectAttempts = 0
      ∧ ((step s e).1.reconnectAttempts > s.reconnectAttempts →
          ∃ code, e = WSEvent.closeEvt code ∧ code ≠ 1000) := by
  refine ⟨rfl, ?_⟩
  intro hinc
  cases e with
  | connectCall tok =>
    have h : (step s (WSEvent.connectCall tok)).1.reconnectAttempts
        = s.reconnectAttempts := wsConnect_preserves_attempts tok s
    omega
  | openEvt =>
    have h : (step s WSEvent.openEvt).1.reconnectAttempts = 0 := rfl
    omega
  | closeEvt code =>
    refine ⟨code, rfl, ?_⟩
    intro hcode
    subst hcode
    have h : (step s (WSEvent.closeEvt 1000)).1.reconnectAttempts
        = s.reconnectAttempts := by
      simp [step, wsOnClose]
    omega
  | messageEvt data =>
    have h : (step s (WSEvent.messageEvt data)).1.reconnectAttempts
        = s.reconnectAttempts := rfl
    omega
  | disconnectCall =>
    have h : (step s WSEvent.disconnectCall).1.reconnectAttempts
        = s.reconnectAttempts := rfl
    omega
  | timerFire tok =>
    have h : (step s (WSEvent.timerFire tok)).1.reconnectAttempts
        = s.reconnectAttempts := by
      show (wsTimerFire tok s).1.reconnectAttempts = s.reconnectAttempts
      unfold wsTimerFire
      cases hrt : s.reconnectTimeout with
      | none => rfl
      | some d => simp [wsConnect_preserves_attempts]
    omega

/-- C7 witness: after an open event the counter is 0, and the event that
raised the counter from 0 to 1 in the sample run is the abnormal close
with code 1006. -/
theorem open_resets_attempts_witness :
    (wsOnOpen ⟨true, none, false, 4, false, false⟩).1.reconnectAttempts = 0
      ∧ ∃ code, WSEvent.closeEvt 1006 = WSEvent.closeEvt code ∧ code ≠ 1000 :=
  ⟨(open_resets_attempts ⟨true, none, false, 4, false, false⟩
      (WSEvent.closeEvt 1006)).1,
   (open_resets_attempts ⟨true, none, true, 0, true, false⟩
      (WSEvent.closeEvt 1006)).2 (by decide)⟩

/-- C2 counterexample: in a state with a pending reconnect timer and a
running keepalive interval, the first action `disconnect()` performs is
setting the intentionally-closed (`isUnmounted`) flag — part_001 line
141 precedes the `clearTimeout`/`clearInterval` calls — so cancelling
the timers is not its first action, and the flag is set before, not
after, the transport is closed. -/
theorem disconnect_first_action_is_unmount_flag :
    (wsDisconnect ⟨true, some 3000, true, 2, true, false⟩).2.head?
        = some WSAction.setUnmountedFlag
      ∧ WSAction.setUnmountedFlag ≠ WSAction.clearReconnectTimer
      ∧ WSAction.setUnmountedFlag ≠ WSAction.clearPingInterval := by
  decide

/-- C2 (amended): `disconnect()` marks the manager intentionally closed
as its first action, then cancels any pending reconnect timer and any
running keepalive interval, then closes the transport with
normal-closure code 1000 when a socket exists; consequently the
subsequent close-event handler sees the flag and schedules no reconnect
attempt. -/
theorem disconnect_effects (s : WSState) (code : Nat) :
    (wsDisconnect s).1.isUnmounted = true
      ∧ (wsDisconnect s).1.reconnectTimeout = none
      ∧ (wsDisconnect s).1.pingActive = false
      ∧ (wsDisconnect s).2.head? = some WSAction.setUnmountedFlag
      ∧ (s.reconnectTimeout.isSome = true →
          WSAction.clearReconnectTimer ∈ (wsDisconnect s).2)
      ∧ (s.pingActive = true →
          WSAction.clearPingInterval ∈ (wsDisconnect s).2)
      ∧ (s.hasWs = true →
          WSAction.closeTransport 1000 ∈ (wsDisconnect s).2)
      ∧ ∀ d, WSAction.scheduleReconnect d ∉ (wsOnClose code (wsDisconnect s).1).2 := by
  refine ⟨rfl, rfl, rfl, rfl, ?_, ?_, ?_, ?_⟩
  · intro h
    simp [wsDisconnect, h]
  · intro h
    simp [wsDisconnect, h]
  · intro h
    simp [wsDisconnect, h]
  · intro d
    simp [wsOnClose, wsDisconnect]

/-- C2 witness: the amended statement evaluated on a state with a
pending reconnect timer, a running keepalive and a live socket, followed
by a close event with code 1006. -/
theorem disconnect_effects_witness :
    (wsDisconnect ⟨true, some 9000, true, 3, true, false⟩).1.isUnmounted = true
      ∧ (wsDisconnect ⟨true, some 9000, true, 3, true, false⟩).1.reconnectTimeout = none
      ∧ (wsDisconnect ⟨true, some 9000, true, 3, true, false⟩).1.pingActive = false
      ∧ (wsDisconnect ⟨true, some 9000, true, 3, true, false⟩).2.head?
          = some WSAction.setUnmountedFlag
      ∧ WSAction.clearReconnectTimer
          ∈ (wsDisconnect ⟨true, some 9000, true, 3, true, false⟩).2
      ∧ WSAction.clearPingInterval
          ∈ (wsDisconnect ⟨true, some 9000, true, 3, true, false⟩).2
      ∧ WSAction.closeTransport 1000
          ∈ (wsDisconnect ⟨true, some 9000, true, 3, true, false⟩).2
      ∧ WSAction.scheduleReconnect 3000
          ∉ (wsOnClose 1006 (wsDisconnect ⟨true, some 9000, true, 3, true, false⟩).1).2 := by
  have h := disconnect_effects ⟨true, some 9000, true, 3, true, false⟩ 1006
  exact ⟨h.1, h.2.1, h.2.2.1, h.2.2.2.1, h.2.2.2.2.1 rfl, h.2.2.2.2.2.1 rfl,
         h.2.2.2.2.2.2.1 rfl, h.2.2.2.2.2.2.2 3000⟩

/-- C9: in the context-provider variant, `disconnect()` sets the
unmounted flag, no event of the manager ever clears it again, and while
it is set every `connect()` call returns immediately with no transport
opened and no state change: the manager cannot be revived by an explicit
`connect()`. -/
theorem disconnect_permanent (s s2 : WSState) (tok : Bool) (e : WSEvent)
    (h : s2.isUnmounted = true) :
    (wsDisconnect s).1.isUnmounted = true
      ∧ wsConnect tok s2 = (s2, [])
      ∧ (step s2 e).1.isUnmounted = true := by
  refine ⟨rfl, ?_, ?_⟩
  · unfold wsConnect
    rw [if_pos h]
  · cases e with
    | connectCall tok2 =>
      show (wsConnect tok2 s2).1.isUnmounted = true
      rw [wsConnect_preserves_unmounted]
      exact h
    | openEvt => exact h
    | closeEvt code =>
      show (wsOnClose code s2).1.isUnmounted = true
      unfold wsOnClose
      rw [if_pos (by simp [h])]
      exact h
    | messageEvt data => exact h
    | disconnectCall => rfl
    | timerFire tok2 =>
      show (wsTimerFire tok2 s2).1.isUnmounted = true
      unfold wsTimerFire
      cases hrt : s2.reconnectTimeout with
      | none => exact h
      | some d =>
        rw [wsConnect_preserves_unmounted]
        exact h

/-- C9 witness: after `disconnect()` on a live state, a `connect()` call
on the disposed state is an identity with no actions, and a further
event keeps the flag set. -/
theorem disconnect_permanent_witness :
    (wsDisconnect ⟨true, some 3000, true, 1, true, false⟩).1.isUnmounted = true
      ∧ wsConnect true ⟨false, none, false, 0, false, true⟩
          = (⟨false, none, false, 0, false, true⟩, [])
      ∧ (step ⟨false, none, false, 0, false, true⟩ (WSEvent.connectCall true)).1.isUnmounted
          = true :=
  disconnect_permanent ⟨true, some 3000, true, 1, true, false⟩
    ⟨false, none, false, 0, false, true⟩ true (WSEvent.connectCall true) rfl
